import Mathlib

/-!
Verification development for the `api_call.arium.api.request` module of the
`air-arium/python` client library.

The Python source (`src/src/api_call/arium/api/request.py`) is shallowly
embedded below:

* bytes are `List Nat` (each element a byte value `< 256`),
* an HTTP response (`requests.Response`) is the structure `Response`,
* Python JSON values (`json.loads` results) are the inductive `Json`
  (arrays and objects are encoded with explicit cons cells so that
  decidable equality can be derived; `Json.arrOf` / `Json.objOf` convert
  from ordinary lists),
* fallible Python code that raises becomes `Option` / `Except`,
* the standard-library calls (`json.loads`, `bytes.decode("utf-8")`,
  `bytes.splitlines`, `csv.reader`, `zipfile.ZipFile(...).read`) are
  modelled by executable Lean functions faithful to their documented
  behaviour on the inputs this module feeds them.

The module's functions (`retry`, `get_content`, `read_csv`, `asset_list`,
`asset_post`, `asset_polling`, `_assets_db_polling`) then translate
directly, and the stated claims are proved or refuted about these
definitions.
-/

/-- Python JSON values.  Arrays and objects are spelt with explicit cons
cells (`arrNil`/`arrCons`, `objNil`/`objCons`) instead of nested `List`s so
that `DecidableEq` can be derived; `Json.arrOf` and `Json.objOf` build them
from ordinary lists.  Float literals are kept syntactically (this module
never computes with them). -/
inductive Json where
  | null
  | bool (b : Bool)
  | num (n : Int)
  | float (lit : String)
  | str (s : String)
  | arrNil
  | arrCons (hd tl : Json)
  | objNil
  | objCons (key : String) (val tl : Json)
deriving DecidableEq, Repr

/-- Build a JSON array from a list of values. -/
def Json.arrOf : List Json → Json
  | [] => .arrNil
  | x :: xs => .arrCons x (Json.arrOf xs)

/-- Build a JSON object from a list of key/value fields. -/
def Json.objOf : List (String × Json) → Json
  | [] => .objNil
  | (k, v) :: fs => .objCons k v (Json.objOf fs)

/-- Is the value a JSON object (a Python `dict`)? -/
def Json.isObj : Json → Bool
  | .objNil => true
  | .objCons _ _ _ => true
  | _ => false

/-- Is the value a JSON array (a Python `list`)? -/
def Json.isArr : Json → Bool
  | .arrNil => true
  | .arrCons _ _ => true
  | _ => false

/-- Python `dict` item lookup `j[key]`: `none` models a `KeyError` (or a
`TypeError` when `j` is not a dict).  As in a Python dict built by
`json.loads`, a later duplicate key wins. -/
def jsonGet : Json → String → Option Json
  | .objCons k v tl, key =>
    match jsonGet tl key with
    | some v' => some v'
    | none => if k = key then some v else none
  | _, _ => none

/-- UTF-8 encoding of one Unicode scalar value (`str.encode("utf-8")`,
one character). -/
def utf8EncodeChar (c : Char) : List Nat :=
  let n := c.toNat
  if n < 0x80 then [n]
  else if n < 0x800 then [0xC0 + n / 64, 0x80 + n % 64]
  else if n < 0x10000 then
    [0xE0 + n / 4096, 0x80 + (n / 64) % 64, 0x80 + n % 64]
  else
    [0xF0 + n / 0x40000, 0x80 + (n / 4096) % 64, 0x80 + (n / 64) % 64,
      0x80 + n % 64]

/-- Python `s.encode("utf-8")`. -/
def utf8Encode (s : String) : List Nat :=
  s.data.flatMap utf8EncodeChar

/-- Is `b` a UTF-8 continuation byte (`0x80..0xBF`)? -/
def isCont (b : Nat) : Bool := 0x80 ≤ b && b < 0xC0

/-- Strict UTF-8 decoding to a character list; `none` models Python's
`UnicodeDecodeError` (as raised by `bytes.decode("utf-8")`).  Overlong
encodings, surrogates and out-of-range values are rejected, as in CPython. -/
def utf8DecodeChars : List Nat → Option (List Char)
  | [] => some []
  | b :: rest =>
    if b < 0x80 then
      (utf8DecodeChars rest).map (fun cs => Char.ofNat b :: cs)
    else if b < 0xC2 then none
    else if b < 0xE0 then
      match rest with
      | c1 :: rest' =>
        if isCont c1 then
          (utf8DecodeChars rest').map
            (fun cs => Char.ofNat ((b - 0xC0) * 64 + (c1 - 0x80)) :: cs)
        else none
      | [] => none
    else if b < 0xF0 then
      match rest with
      | c1 :: c2 :: rest' =>
        if isCont c1 && isCont c2 then
          let n := (b - 0xE0) * 4096 + (c1 - 0x80) * 64 + (c2 - 0x80)
          if 0x800 ≤ n && ¬ (0xD800 ≤ n && n < 0xE000) then
            (utf8DecodeChars rest').map (fun cs => Char.ofNat n :: cs)
          else none
        else none
      | _ => none
    else if b < 0xF5 then
      match rest with
      | c1 :: c2 :: c3 :: rest' =>
        if isCont c1 && isCont c2 && isCont c3 then
          let n := (b - 0xF0) * 0x40000 + (c1 - 0x80) * 4096 +
            (c2 - 0x80) * 64 + (c3 - 0x80)
          if 0x10000 ≤ n && n < 0x110000 then
            (utf8DecodeChars rest').map (fun cs => Char.ofNat n :: cs)
          else none
        else none
      | _ => none
    else none

/-- Python `bytes.decode("utf-8")`: `none` models `UnicodeDecodeError`. -/
def utf8Decode (bs : List Nat) : Option String :=
  (utf8DecodeChars bs).map String.mk

/-- The characters `json` treats as whitespace (CPython `json.decoder`). -/
def jsonWs (c : Char) : Bool := c = ' ' || c = '\t' || c = '\n' || c = '\r'

/-- Skip JSON whitespace. -/
def skipWs (s : List Char) : List Char := s.dropWhile jsonWs

/-- The `LEFT CURLY BRACKET` character. -/
def lbrace : Char := Char.ofNat 123

/-- The `RIGHT CURLY BRACKET` character. -/
def rbrace : Char := Char.ofNat 125

/-- Value of one hex digit. -/
def hexVal (c : Char) : Option Nat :=
  if '0' ≤ c ∧ c ≤ '9' then some (c.toNat - 48)
  else if 'a' ≤ c ∧ c ≤ 'f' then some (c.toNat - 87)
  else if 'A' ≤ c ∧ c ≤ 'F' then some (c.toNat - 55)
  else none

/-- Value of a four-hex-digit group (as in a `\uXXXX` escape). -/
def hex4 (a b c d : Char) : Option Nat :=
  match hexVal a, hexVal b, hexVal c, hexVal d with
  | some x, some y, some z, some w => some (x * 4096 + y * 256 + z * 16 + w)
  | _, _, _, _ => none

/-- Parse the body of a JSON string literal (the opening quote already
consumed); returns the decoded characters and the remaining input.
Faithful to CPython's strict `json` string grammar, except that a lone
surrogate escape is rejected here (a Lean `Char` cannot hold one) while
CPython builds a lone-surrogate `str`; no claim exercises that corner. -/
def parseStringChars : List Char → Option (List Char × List Char)
  | [] => none
  | c :: rest =>
    if c = '"' then some ([], rest)
    else if c = '\\' then
      match rest with
      | [] => none
      | e :: rest1 =>
        if e = '"' ∨ e = '\\' ∨ e = '/' then
          (parseStringChars rest1).map (fun p => (e :: p.1, p.2))
        else if e = 'b' then
          (parseStringChars rest1).map (fun p => (Char.ofNat 8 :: p.1, p.2))
        else if e = 'f' then
          (parseStringChars rest1).map (fun p => (Char.ofNat 12 :: p.1, p.2))
        else if e = 'n' then
          (parseStringChars rest1).map (fun p => (Char.ofNat 10 :: p.1, p.2))
        else if e = 'r' then
          (parseStringChars rest1).map (fun p => (Char.ofNat 13 :: p.1, p.2))
        else if e = 't' then
          (parseStringChars rest1).map (fun p => (Char.ofNat 9 :: p.1, p.2))
        else if e = 'u' then
          match rest1 with
          | h1 :: h2 :: h3 :: h4 :: rest2 =>
            match hex4 h1 h2 h3 h4 with
            | none => none
            | some n =>
              if 0xD800 ≤ n ∧ n < 0xDC00 then
                match rest2 with
                | b1 :: b2 :: k1 :: k2 :: k3 :: k4 :: rest3 =>
                  if b1 = '\\' ∧ b2 = 'u' then
                    match hex4 k1 k2 k3 k4 with
                    | some m =>
                      if 0xDC00 ≤ m ∧ m < 0xE000 then
                        (parseStringChars rest3).map (fun p =>
                          (Char.ofNat
                            (0x10000 + (n - 0xD800) * 1024 + (m - 0xDC00)) ::
                              p.1, p.2))
                      else none
                    | none => none
                  else none
                | _ => none
              else if 0xDC00 ≤ n ∧ n < 0xE000 then none
              else (parseStringChars rest2).map (fun p => (Char.ofNat n :: p.1, p.2))
          | _ => none
        else none
    else if 0x20 ≤ c.toNat then
      (parseStringChars rest).map (fun p => (c :: p.1, p.2))
    else none

/-- Expect the literal characters of `lit` at the head of the input. -/
def expectLit (lit : String) (s : List Char) : Option (List Char) :=
  if lit.data.isPrefixOf s then some (s.drop lit.length) else none

/-- Natural number denoted by a digit string. -/
def natOfDigits (ds : List Char) : Nat :=
  ds.foldl (fun a c => a * 10 + (c.toNat - 48)) 0

/-- Parse an optional JSON fraction part; returns the consumed characters
and the rest. -/
def parseFracPart (s : List Char) : Option (List Char × List Char) :=
  match s with
  | '.' :: r =>
    let ds := r.takeWhile Char.isDigit
    if ds.isEmpty then none else some ('.' :: ds, r.dropWhile Char.isDigit)
  | _ => some ([], s)

/-- Parse an optional JSON exponent part; returns the consumed characters
and the rest. -/
def parseExpPart (s : List Char) : Option (List Char × List Char) :=
  match s with
  | c :: r =>
    if c = 'e' ∨ c = 'E' then
      let sr : List Char × List Char :=
        match r with
        | '+' :: r' => (['+'], r')
        | '-' :: r' => (['-'], r')
        | _ => ([], r)
      let ds := sr.2.takeWhile Char.isDigit
      if ds.isEmpty then none
      else some (c :: sr.1 ++ ds, sr.2.dropWhile Char.isDigit)
    else some ([], s)
  | [] => some ([], [])

/-- Parse a JSON number (also CPython's `Infinity` / `-Infinity` extras).
An integer literal becomes `Json.num`; a literal with a fraction or
exponent is kept syntactically as `Json.float`. -/
def parseNumber (s : List Char) : Option (Json × List Char) :=
  let sg : List Char × List Char :=
    match s with
    | '-' :: r => (['-'], r)
    | _ => ([], s)
  match expectLit "Infinity" sg.2 with
  | some r => some (.float (String.mk (sg.1 ++ "Infinity".data)), r)
  | none =>
    let ds := sg.2.takeWhile Char.isDigit
    let s2 := sg.2.dropWhile Char.isDigit
    if ds.isEmpty then none
    else if 1 < ds.length ∧ ds.headD 'x' = '0' then none
    else
      match parseFracPart s2 with
      | none => none
      | some (fr, s3) =>
        match parseExpPart s3 with
        | none => none
        | some (ex, s4) =>
          if fr.isEmpty ∧ ex.isEmpty then
            let n : Int := Int.ofNat (natOfDigits ds)
            some (.num (if sg.1.isEmpty then n else -n), s4)
          else some (.float (String.mk (sg.1 ++ ds ++ fr ++ ex)), s4)

mutual

/-- Parse one JSON value (fueled recursive-descent; faithful to CPython's
`json.loads` grammar on the inputs this module sees). -/
def parseVal : Nat → List Char → Option (Json × List Char)
  | 0, _ => none
  | fuel + 1, s =>
    let s := skipWs s
    match s with
    | [] => none
    | c :: rest =>
      if c = lbrace then parseObjFields fuel rest []
      else if c = '[' then parseArrElems fuel rest []
      else if c = '"' then
        (parseStringChars rest).map (fun p => (.str (String.mk p.1), p.2))
      else if c = 't' then (expectLit "rue" rest).map (fun r => (.bool true, r))
      else if c = 'f' then (expectLit "alse" rest).map (fun r => (.bool false, r))
      else if c = 'n' then (expectLit "ull" rest).map (fun r => (.null, r))
      else if c = 'N' then (expectLit "aN" rest).map (fun r => (.float "NaN", r))
      else if c = '-' ∨ c.isDigit ∨ c = 'I' then parseNumber s
      else none

/-- Parse the elements of a JSON array (the opening bracket consumed). -/
def parseArrElems : Nat → List Char → List Json → Option (Json × List Char)
  | 0, _, _ => none
  | fuel + 1, s, acc =>
    let s := skipWs s
    match s with
    | [] => none
    | c :: rest =>
      if c = ']' ∧ acc.isEmpty then some (.arrOf [], rest)
      else
        match parseVal fuel s with
        | none => none
        | some (v, s1) =>
          match skipWs s1 with
          | [] => none
          | c2 :: rest2 =>
            if c2 = ',' then parseArrElems fuel rest2 (acc ++ [v])
            else if c2 = ']' then some (.arrOf (acc ++ [v]), rest2)
            else none

/-- Parse the fields of a JSON object (the opening brace consumed). -/
def parseObjFields : Nat → List Char → List (String × Json) →
    Option (Json × List Char)
  | 0, _, _ => none
  | fuel + 1, s, acc =>
    let s := skipWs s
    match s with
    | [] => none
    | c :: rest =>
      if c = rbrace ∧ acc.isEmpty then some (.objOf [], rest)
      else if c = '"' then
        match parseStringChars rest with
        | none => none
        | some (kcs, s1) =>
          match skipWs s1 with
          | ':' :: s2 =>
            match parseVal fuel s2 with
            | none => none
            | some (v, s3) =>
              match skipWs s3 with
              | [] => none
              | c2 :: rest2 =>
                if c2 = ',' then
                  parseObjFields fuel rest2 (acc ++ [(String.mk kcs, v)])
                else if c2 = rbrace then
                  some (.objOf (acc ++ [(String.mk kcs, v)]), rest2)
                else none
          | _ => none
      else none

end

/-- Python `json.loads` on a `bytes` body: decode as UTF-8 (CPython's
`detect_encoding` yields UTF-8 for the bodies this client sees), then parse
one JSON value with nothing but whitespace after it.  `none` models a raised
`ValueError` / `UnicodeDecodeError` from `json.loads`. -/
def json_loads (bs : List Nat) : Option Json :=
  match utf8DecodeChars bs with
  | none => none
  | some cs =>
    match parseVal (2 * cs.length + 8) cs with
    | some (v, rest) => if (skipWs rest).isEmpty then some v else none
    | none => none

/-- Python `bytes.splitlines()`: split at `\n`, `\r\n` or `\r`, no trailing
empty segment for a trailing terminator. -/
def splitlinesGo : List Nat → List Nat → List (List Nat)
  | [], cur => if cur.isEmpty then [] else [cur.reverse]
  | 13 :: 10 :: rest, cur => cur.reverse :: splitlinesGo rest []
  | 13 :: rest, cur => cur.reverse :: splitlinesGo rest []
  | 10 :: rest, cur => cur.reverse :: splitlinesGo rest []
  | b :: rest, cur => splitlinesGo rest (b :: cur)

/-- Python `bytes.splitlines()`. -/
def splitlines (bs : List Nat) : List (List Nat) := splitlinesGo bs []

/-- Parse one CSV field starting at `cs`: a double-quoted field (with `""`
as an escaped quote) or a bare field running to the next delimiter.
Returns the field and the rest (beginning with the delimiter, if any).
`none` models a `csv.Error`.  Faithful to `csv.reader`'s default dialect on
well-formed rows; CPython's laxer recovery on stray quotes is not modelled
(no claim exercises it). -/
def csvField (cs : List Char) (delim : Char) : Option (List Char × List Char) :=
  match cs with
  | '"' :: rest => csvQuoted rest []
  | _ => some (cs.takeWhile (fun c => c ≠ delim), cs.dropWhile (fun c => c ≠ delim))
where
  /-- Read a quoted field body up to its closing quote. -/
  csvQuoted : List Char → List Char → Option (List Char × List Char)
    | [], _ => none
    | '"' :: '"' :: rest, acc => csvQuoted rest ('"' :: acc)
    | '"' :: rest, acc =>
      match rest with
      | [] => some (acc.reverse, [])
      | c :: _ => if c = delim then some (acc.reverse, rest) else none
    | c :: rest, acc => csvQuoted rest (c :: acc)

/-- Parse one CSV record (one line, terminator already stripped) into its
fields.  An empty line yields an empty record, as `csv.reader` does. -/
def csvRow (fuel : Nat) (cs : List Char) (delim : Char) : Option (List String) :=
  match fuel with
  | 0 => none
  | fuel + 1 =>
    if cs.isEmpty then some [] else csvRowNE fuel cs
where
  /-- Parse a non-empty record: one field, then the rest after a delimiter. -/
  csvRowNE (fuel : Nat) (cs : List Char) : Option (List String) :=
    match csvField cs delim with
    | none => none
    | some (f, rest) =>
      match rest with
      | [] => some [String.mk f]
      | _ :: rest' =>
        match fuel with
        | 0 => none
        | fuel + 1 => (csvRowNE fuel rest').map (fun fs => String.mk f :: fs)

/-- The `read_csv` generator of `request.py`, collected by the caller's
`list(...)`: decode each line as UTF-8 (`codecs.iterdecode(data, "utf-8")`)
and parse it as one CSV record.  `none` models an exception escaping the
iteration (a `UnicodeDecodeError` or `csv.Error`). -/
def read_csv (data : List (List Nat)) (delimiter : Char) :
    Option (List (List String)) :=
  data.mapM (fun line =>
    match utf8DecodeChars line with
    | none => none
    | some cs => csvRow (cs.length + 1) cs delimiter)

/-- One step of the reflected CRC-32 (polynomial `0xEDB88320`), one input
byte (as `zlib.crc32` computes it, used by `zipfile` to check entries). -/
def crc32Update (crc b : Nat) : Nat :=
  (List.range 8).foldl
    (fun c _ => if c % 2 = 1 then (c / 2) ^^^ 0xEDB88320 else c / 2)
    (crc ^^^ b)

/-- `zlib.crc32` of a byte string. -/
def crc32 (bs : List Nat) : Nat :=
  (bs.foldl crc32Update 0xFFFFFFFF) ^^^ 0xFFFFFFFF

/-- Little-endian 16-bit value. -/
def le16 (b0 b1 : Nat) : Nat := b0 + 256 * b1

/-- Little-endian 32-bit value. -/
def le32 (b0 b1 b2 b3 : Nat) : Nat :=
  b0 + 256 * b1 + 65536 * b2 + 16777216 * b3

/-- `zipfile.ZipFile(BytesIO(bs)).read(namelist()[0])` for a single-entry
archive whose entry is stored (uncompressed): parse the local file header
at offset 0, take the entry's bytes, and check the recorded CRC-32 and
sizes as `zipfile` does on read.  `none` models a `BadZipFile` (or any
other error the `with zipfile.ZipFile(...)` block raises).  The
central-directory bookkeeping of a well-formed archive is elided: this
model reads the sizes from the local header, which agree with the central
directory in any archive `zipfile` itself accepts. -/
def zipReadFirst (bs : List Nat) : Option (List Nat) :=
  match bs with
  | 0x50 :: 0x4B :: 0x03 :: 0x04 :: _v0 :: _v1 :: f0 :: f1 :: m0 :: m1 ::
      _t0 :: _t1 :: _d0 :: _d1 :: c0 :: c1 :: c2 :: c3 ::
      s0 :: s1 :: s2 :: s3 :: u0 :: u1 :: u2 :: u3 ::
      n0 :: n1 :: e0 :: e1 :: rest =>
    let flags := le16 f0 f1
    let method := le16 m0 m1
    let csize := le32 s0 s1 s2 s3
    let usize := le32 u0 u1 u2 u3
    let fnlen := le16 n0 n1
    let extralen := le16 e0 e1
    if method = 0 ∧ flags.testBit 3 = false ∧ flags.testBit 0 = false then
      let afterName := rest.drop (fnlen + extralen)
      if csize ≤ afterName.length ∧ usize = csize then
        let data := afterName.take csize
        if crc32 data = le32 c0 c1 c2 c3 then some data else none
      else none
    else none
  | _ => none

/-- One HTTP exchange's result as the decoder sees it (`requests.Response`):
status code, header mapping, byte payload. -/
structure Response where
  status_code : Nat
  headers : List (String × String)
  content : List Nat
deriving DecidableEq, Repr

/-- `response.headers.get(key, None)` (looked up with the exact key this
module uses; `requests`' case-insensitivity is immaterial here). -/
def Response.getHeader (r : Response) (key : String) : Option String :=
  (r.headers.find? (fun p => p.1 = key)).map (fun p => p.2)

/-- The decoded result of `get_content`: exactly one of four variants. -/
inductive Content where
  | raw (bs : List Nat)
  | text (s : String)
  | structured (j : Json)
  | tabular (rows : List (List String))
deriving DecidableEq, Repr

/-- An error escaping `get_content`.  `unexpectedStatus` models
`AriumAPACResponseException(response)` — modelled from the spec insofar as
the exception class itself lives outside `src/`: per the spec it is the
UnexpectedStatus error "carrying the response".  `unicodeDecodeError`
models a `UnicodeDecodeError` raised by the fallback
`response.content.decode("utf-8")` on line 91. -/
inductive GetContentError where
  | unexpectedStatus (response : Response)
  | unicodeDecodeError
deriving DecidableEq, Repr

/-- Lines 70-73 of `get_content`: when `get_from_location` is set and the
response carries a non-empty `Location` header, re-fetch from that
location (`fetch` stands for `requests.get(url=..., verify=...)`). -/
def resolve_location (fetch : String → Response) (response : Response)
    (get_from_location : Bool) : Response :=
  if get_from_location then
    match response.getHeader "Location" with
    | some loc => if loc ≠ "" then fetch loc else response
    | none => response
  else response

/-- `get_content` (lines 57-94 of `request.py`), with `fetch` standing for
the transport used to dereference a `Location` header.  Flags are passed
positionally: `accept`, `load`, `get_from_location`, `csv_content`,
`unzip` (`verify` only parametrizes the transport and is folded into
`fetch`).  The `accept is None` default is the caller's
`[200, 204]`. -/
def get_content (fetch : String → Response) (response : Response)
    (accept : List Nat) (load get_from_location csv_content unzip : Bool) :
    Except GetContentError Content :=
  if response.status_code ∈ accept then
    let resp2 := resolve_location fetch response get_from_location
    if load = false then .ok (.raw resp2.content)
    else
      let attempt : Option Content :=
        if csv_content = false then
          (json_loads resp2.content).map .structured
        else
          let base : Option (List Nat) :=
            if unzip then zipReadFirst resp2.content else some resp2.content
          match base with
          | none => none
          | some c => (read_csv (splitlines c) ',').map .tabular
      match attempt with
      | some c => .ok c
      | none =>
        match utf8Decode resp2.content with
        | some s => .ok (.text s)
        | none => .error .unicodeDecodeError
  else .error (.unexpectedStatus response)

/-- Decidable equality for `Except` results (needed to evaluate concrete
decoder outcomes inside proofs). -/
instance exceptDecEq {ε α : Type} [DecidableEq ε] [DecidableEq α] :
    DecidableEq (Except ε α) := fun x y =>
  match x, y with
  | .ok a, .ok b =>
    if h : a = b then .isTrue (by rw [h])
    else .isFalse (fun hh => h (Except.ok.inj hh))
  | .error e, .error f =>
    if h : e = f then .isTrue (by rw [h])
    else .isFalse (fun hh => h (Except.error.inj hh))
  | .ok _, .error _ => .isFalse (fun hh => Except.noConfusion hh)
  | .error _, .ok _ => .isFalse (fun hh => Except.noConfusion hh)

/-- The outcome of one invocation of an operation wrapped by `retry`:
a returned value, a raised `requests.exceptions.ConnectionError`, or any
other raised error (tagged by a number so distinct errors are
distinguishable). -/
inductive Outcome (α : Type) where
  | ok (v : α)
  | connError
  | otherError (e : Nat)
deriving DecidableEq, Repr

/-- The `while attempt < times` loop of `retry` (lines 32-48 of
`request.py`).  The wrapped function is modelled as `f : Nat → Outcome α`,
giving the outcome of its `call`-th invocation (0-based).  `remaining`
is `times - attempt`; `delay` is the current backoff; `sleeps` accumulates
the delays slept so far.  When the loop exhausts (`remaining = 0`), the
final unguarded `return func(...)` on line 48 runs: its outcome — value
or error — is the result.  Returns (outcome, total number of invocations,
slept delays in order). -/
def retryLoop {α : Type} (f : Nat → Outcome α) :
    Nat → Nat → Nat → List Nat → Outcome α × Nat × List Nat
  | 0, _, call, sleeps => (f call, call + 1, sleeps)
  | remaining + 1, delay, call, sleeps =>
    match f call with
    | .connError => retryLoop f remaining (delay * 2) (call + 1) (sleeps ++ [delay])
    | r => (r, call + 1, sleeps)

/-- The `retry(times)` decorator applied to an operation `f`:
`delay` starts at 1, `attempt` at 0. -/
def retry {α : Type} (times : Nat) (f : Nat → Outcome α) :
    Outcome α × Nat × List Nat :=
  retryLoop f times 1 0 []

/-- `asset_polling`'s loop (lines 490-509).  `fetches n` is the decoded
record produced by the `(n+1)`-th `asset_get` for the polled asset —
`asset_polling` re-fetches while `asset["status"]` is `"uploading"` or
`"processing"` (sleeping 1.0 between re-fetches, not tracked here).  It
finally returns `asset["status"]` (line 509) — the status value, not the
record.  Result: `(returned value, number of status checks)`; `none`
models a `KeyError` (record without `"status"`) or an unbounded wait
longer than `fuel`. -/
def asset_polling_go (fetches : Nat → Json) :
    Nat → Json → Nat → Option (Json × Nat)
  | 0, _, _ => none
  | fuel + 1, asset, checks =>
    match jsonGet asset "status" with
    | none => none
    | some v =>
      if v = Json.str "uploading" ∨ v = Json.str "processing" then
        asset_polling_go fetches fuel (fetches checks) (checks + 1)
      else some (v, checks)

/-- `asset_polling` (lines 490-509): first check, then the loop. -/
def asset_polling (fetches : Nat → Json) (fuel : Nat) : Option (Json × Nat) :=
  asset_polling_go fetches fuel (fetches 0) 1

/-- `_assets_db_polling`'s loop (lines 538-556), shared by
`copy_workspace_polling` and `import_polling`: re-fetch while
`content["state"]` is `"uploading"` or `"processing"`, then return the
last fetched record `content` itself (line 556).  `fetches n` is the
decoded content of the `(n+1)`-th status request (each decoded with
`accept = [200, 202, 102]`). -/
def assets_db_polling_go (fetches : Nat → Json) :
    Nat → Json → Nat → Option (Json × Nat)
  | 0, _, _ => none
  | fuel + 1, content, checks =>
    match jsonGet content "state" with
    | none => none
    | some v =>
      if v = Json.str "uploading" ∨ v = Json.str "processing" then
        assets_db_polling_go fetches fuel (fetches checks) (checks + 1)
      else some (content, checks)

/-- `_assets_db_polling` (lines 538-556): first check, then the loop. -/
def assets_db_polling (fetches : Nat → Json) (fuel : Nat) :
    Option (Json × Nat) :=
  assets_db_polling_go fetches fuel (fetches 0) 1

/-- An error raised by an asset operation's result shaping:
`unexpectedContentType` models the
`Exception("Unexpected content type: ...")` of `asset_list` (line 244);
`keyError` models a `KeyError` on a missing dict key. -/
inductive AssetOpError where
  | unexpectedContentType
  | keyError
deriving DecidableEq, Repr

/-- `asset_list`'s result shaping (lines 240-244), applied to the decoded
content of the list request: a dict logs `content["count"]` and
`content["total"]` (each a `KeyError` if missing) and returns
`content["content"]`; anything else raises the unexpected-content-type
error. -/
def asset_list (content : Json) : Except AssetOpError Json :=
  if content.isObj then
    match jsonGet content "count", jsonGet content "total",
        jsonGet content "content" with
    | some _, some _, some c => .ok c
    | _, _, _ => .error .keyError
  else .error .unexpectedContentType

/-- Python byte whitespace, as `bytes.strip()` removes. -/
def pyWs (b : Nat) : Bool :=
  b = 32 || b = 9 || b = 10 || b = 13 || b = 11 || b = 12

/-- Python `bytes.strip()`: drop leading and trailing ASCII whitespace. -/
def bytesStrip (bs : List Nat) : List Nat :=
  ((bs.dropWhile pyWs).reverse.dropWhile pyWs).reverse

/-- `asset_post` (lines 446-487), modulo its `retry`/`exception_handler`
wrappers.  `response` is the server's reply to the initial POST;
`assetGets n` is the decoded record of the `(n+1)`-th `asset_get` issued
for the created asset's id (the polling checks and the final re-fetch all
hit the same endpoint; successive indices model the server's evolving
state).  Returns `(value returned, PUT requests performed as
(url, body) pairs, number of asset_get calls)`; `none` models an
escaping error (decode failure, missing `"id"` key, subscripting a
non-dict) or a wait longer than `fuel`. -/
def asset_post (response : Response) (assetGets : Nat → Json) (data : String)
    (wait : Bool) (fuel : Nat) :
    Option (Json × List (String × List Nat) × Nat) :=
  let location := response.getHeader "Location"
  match get_content (fun _ => response) response [200, 204] true false false true with
  | .error _ => none
  | .ok c =>
    match c with
    | .structured content =>
      match jsonGet content "id" with
      | none => none
      | some _ =>
        match location with
        | none => some (content, [], 0)
        | some loc =>
          let puts := [(loc, bytesStrip (utf8Encode data))]
          if wait then
            match asset_polling assetGets fuel with
            | none => none
            | some (_, checks) => some (assetGets checks, puts, checks + 1)
          else some (assetGets 0, puts, 1)
    | _ => none

/-- Running `k` consecutive transient failures peels `k` iterations off the
retry loop, doubling the delay each time and recording the slept delays. -/
theorem retryLoop_conn_run {α : Type} (f : Nat → Outcome α) :
    ∀ (k : Nat) (rem delay call : Nat) (sleeps : List Nat),
      (∀ i, i < k → f (call + i) = .connError) →
      retryLoop f (k + rem) delay call sleeps =
        retryLoop f rem (delay * 2 ^ k) (call + k)
          (sleeps ++ (List.range k).map (fun i => delay * 2 ^ i)) := by
  intro k
  induction k with
  | zero => intro rem delay call sleeps _; simp
  | succ k ih =>
    intro rem delay call sleeps hfail
    have hstep : retryLoop f (k + 1 + rem) delay call sleeps =
        retryLoop f (k + rem) (delay * 2) (call + 1) (sleeps ++ [delay]) := by
      have h0 : f call = .connError := by simpa using hfail 0 (Nat.succ_pos k)
      have : k + 1 + rem = (k + rem) + 1 := by omega
      rw [this]
      simp [retryLoop, h0]
    rw [hstep, ih rem (delay * 2) (call + 1) (sleeps ++ [delay])
      (fun i hi => by
        have := hfail (i + 1) (by omega)
        simpa [Nat.add_assoc, Nat.add_comm 1 i] using this)]
    have harith : delay * 2 * 2 ^ k = delay * 2 ^ (k + 1) := by ring
    have hcall : call + 1 + k = call + (k + 1) := by omega
    have hlist : (sleeps ++ [delay]) ++
        (List.range k).map (fun i => delay * 2 * 2 ^ i) =
        sleeps ++ (List.range (k + 1)).map (fun i => delay * 2 ^ i) := by
      rw [List.range_succ_eq_map, List.append_assoc]
      simp [List.map_map, Function.comp]
      intro a _
      ring
    rw [harith, hcall, hlist]

/-- A non-transient outcome inside the loop stops it at once: the value or
error is returned with no further invocation and no further sleep. -/
theorem retryLoop_stop {α : Type} (f : Nat → Outcome α) (rem delay call : Nat)
    (sleeps : List Nat) (h : f call ≠ .connError) :
    retryLoop f (rem + 1) delay call sleeps = (f call, call + 1, sleeps) := by
  cases hf : f call with
  | ok v => simp [retryLoop, hf]
  | connError => exact absurd hf h
  | otherError e => simp [retryLoop, hf]

/-- With the attempts exhausted, the final unguarded invocation's outcome is
returned as-is. -/
theorem retryLoop_exhausted {α : Type} (f : Nat → Outcome α)
    (delay call : Nat) (sleeps : List Nat) :
    retryLoop f 0 delay call sleeps = (f call, call + 1, sleeps) := rfl

/-- Claim C1: for every `N` with `1 ≤ N ≤ 10` and every operation raising
`ConnectionError` on each of its first `N - 1` invocations and returning
`v` on its `N`-th, the `retry(times=10)`-wrapped operation returns `v`
after exactly `N` invocations, sleeping delays `1, 2, 4, ..., 2 ^ (N - 2)`
between consecutive invocations. -/
theorem retry_transient_then_success {α : Type} (f : Nat → Outcome α)
    (N : Nat) (v : α) (h1 : 1 ≤ N) (h2 : N ≤ 10)
    (hfail : ∀ i, i < N - 1 → f i = .connError)
    (hok : f (N - 1) = .ok v) :
    retry 10 f = (.ok v, N, (List.range (N - 1)).map (fun i => 2 ^ i)) := by
  have hsplit : (N - 1) + (10 - (N - 1)) = 10 := by omega
  have hr : 10 - (N - 1) = (10 - N) + 1 := by omega
  unfold retry
  rw [← hsplit, retryLoop_conn_run f (N - 1) _ 1 0 [] (by simpa using hfail), hr,
    retryLoop_stop f _ _ _ _ (by simp [hok])]
  simp [hok]
  omega

/-- Claim C5: (a) an error other than `ConnectionError` raised on any
guarded invocation propagates at once — no further invocations, no further
sleeps; (b) if all 10 guarded attempts raise `ConnectionError`, the wrapper
performs exactly one additional final unguarded invocation — 11 in total,
after slept delays `1, 2, ..., 512` — whose outcome, value or error,
propagates to the caller. -/
theorem retry_nontransient_and_exhaustion {α : Type} (f : Nat → Outcome α) :
    (∀ k e, k < 10 → (∀ i, i < k → f i = .connError) → f k = .otherError e →
      retry 10 f = (.otherError e, k + 1, (List.range k).map (fun i => 2 ^ i)))
    ∧ ((∀ i, i < 10 → f i = .connError) →
      retry 10 f = (f 10, 11, (List.range 10).map (fun i => 2 ^ i))) := by
  constructor
  · intro k e hk hfail herr
    have hsplit : k + (10 - k) = 10 := by omega
    have hr : 10 - k = (10 - k - 1) + 1 := by omega
    unfold retry
    rw [← hsplit, retryLoop_conn_run f k _ 1 0 [] (by simpa using hfail), hr,
      retryLoop_stop f _ _ _ _ (by simp [herr])]
    simp [herr]
  · intro hfail
    unfold retry
    have hsplit : (10 : Nat) = 10 + 0 := rfl
    rw [hsplit, retryLoop_conn_run f 10 0 1 0 [] (by simpa using hfail),
      retryLoop_exhausted]
    simp

/-- Witness for C1: an operation failing transiently twice and succeeding
on its third invocation, under `retry(times=10)`. -/
theorem retry_transient_then_success_witness :
    retry 10 (fun i => if i < 2 then Outcome.connError else .ok (42 : Nat)) =
      (.ok 42, 3, [1, 2]) := by
  have h := retry_transient_then_success
    (fun i => if i < 2 then Outcome.connError else .ok (42 : Nat)) 3 42
    (by norm_num) (by norm_num) (by decide) (by norm_num)
  simpa using h

/-- Witness for C5: a non-transient error on the first invocation, and an
operation failing transiently forever. -/
theorem retry_nontransient_and_exhaustion_witness :
    retry 10 (fun i => if i = 0 then Outcome.otherError 7 else .ok (0 : Nat)) =
      (.otherError 7, 1, []) ∧
    retry 10 (fun _ => (Outcome.connError : Outcome Nat)) =
      (.connError, 11, [1, 2, 4, 8, 16, 32, 64, 128, 256, 512]) := by
  constructor
  · have h := (retry_nontransient_and_exhaustion
      (fun i => if i = 0 then Outcome.otherError 7 else .ok (0 : Nat))).1 0 7
      (by norm_num) (by decide) (by norm_num)
    simpa using h
  · have h := (retry_nontransient_and_exhaustion
      (fun _ => (Outcome.connError : Outcome Nat))).2 (fun _ _ => rfl)
    simpa using h

/-- The status-check record sequence uploading / processing / ready (the
ready record also carries an id field). -/
def c3Fetches : Nat → Json := fun n =>
  if n = 0 then .objOf [("status", .str "uploading")]
  else if n = 1 then .objOf [("status", .str "processing")]
  else .objOf [("status", .str "ready"), ("id", .num 5)]

/-- Claim C3 counterexample: on the status sequence uploading, processing,
ready, `asset_polling` performs 3 checks but returns `asset["status"]` —
the string value `"ready"` — not the last observed record, contrary to the
claim's "returns the last observed payload (the record observed with
status ready)". -/
theorem asset_polling_returns_status_counterexample :
    asset_polling c3Fetches 10 = some (.str "ready", 3) ∧
    c3Fetches 2 = .objOf [("status", .str "ready"), ("id", .num 5)] ∧
    Json.str "ready" ≠ c3Fetches 2 := by decide

/-- Claim C3 (amended): on successive statuses uploading, processing, ready
the asset-upload poller performs exactly 3 checks and returns the status
field of the last observed payload (the value ready) — the copy/import
poller `_assets_db_polling` is the one that returns the last observed
record itself; and a first check observing a status outside
uploading/processing means exactly 1 check. -/
theorem polling_checks_and_result (f g h : Nat → Json) (fuel : Nat) (v : Json) :
    ((jsonGet (f 0) "status" = some (.str "uploading")) →
     (jsonGet (f 1) "status" = some (.str "processing")) →
     (jsonGet (f 2) "status" = some (.str "ready")) →
     asset_polling f (fuel + 3) = some (.str "ready", 3))
    ∧ ((jsonGet (g 0) "state" = some (.str "uploading")) →
       (jsonGet (g 1) "state" = some (.str "processing")) →
       (jsonGet (g 2) "state" = some (.str "ready")) →
       assets_db_polling g (fuel + 3) = some (g 2, 3))
    ∧ (jsonGet (h 0) "status" = some v →
       v ≠ .str "uploading" → v ≠ .str "processing" →
       asset_polling h (fuel + 1) = some (v, 1)) := by
  refine ⟨fun h0 h1 h2 => ?_, fun h0 h1 h2 => ?_, fun h0 hv1 hv2 => ?_⟩
  · show asset_polling_go f (fuel + 3) (f 0) 1 = some (.str "ready", 3)
    have e3 : fuel + 3 = (fuel + 2) + 1 := rfl
    rw [e3]
    simp [asset_polling_go, h0, h1, h2]
  · show assets_db_polling_go g (fuel + 3) (g 0) 1 = some (g 2, 3)
    have e3 : fuel + 3 = (fuel + 2) + 1 := rfl
    rw [e3]
    simp [assets_db_polling_go, h0, h1, h2]
  · show asset_polling_go h (fuel + 1) (h 0) 1 = some (v, 1)
    simp [asset_polling_go, h0, hv1, hv2]

/-- The copy/import status-check record sequence for the C3 witness. -/
def c3StateFetches : Nat → Json := fun n =>
  if n = 0 then .objOf [("state", .str "uploading")]
  else if n = 1 then .objOf [("state", .str "processing")]
  else .objOf [("state", .str "ready"), ("ids", .arrOf [.num 1])]

/-- An immediately-terminal first status for the C3 witness. -/
def c3Terminal : Nat → Json := fun _ => .objOf [("status", .str "done")]

/-- Witness for amended C3 on concrete record sequences. -/
theorem polling_checks_and_result_witness :
    asset_polling c3Fetches 10 = some (.str "ready", 3) ∧
    assets_db_polling c3StateFetches 10 = some (c3StateFetches 2, 3) ∧
    asset_polling c3Terminal 8 = some (.str "done", 1) := by
  have h := polling_checks_and_result c3Fetches c3StateFetches c3Terminal 7
    (.str "done")
  exact ⟨by simpa using h.1 (by decide) (by decide) (by decide),
    by simpa using h.2.1 (by decide) (by decide) (by decide),
    by simpa using h.2.2 (by decide) (by decide) (by decide)⟩

/-- Claim C8: `asset_list` on a decoded mapping with keys count, total and
content returns the value of the content key; on a decoded sequence it
raises the unexpected-content-type error and returns no value. -/
theorem asset_list_shaping :
    (∀ (content cnt tot c : Json),
      content.isObj = true →
      jsonGet content "count" = some cnt →
      jsonGet content "total" = some tot →
      jsonGet content "content" = some c →
      asset_list content = .ok c)
    ∧ (∀ xs : List Json,
      asset_list (Json.arrOf xs) = .error .unexpectedContentType) := by
  constructor
  · intro content cnt tot c hobj hcnt htot hc
    simp [asset_list, hobj, hcnt, htot, hc]
  · intro xs
    cases xs with
    | nil => simp [asset_list, Json.arrOf, Json.isObj]
    | cons x xs => simp [asset_list, Json.arrOf, Json.isObj]

/-- Witness for C8 on the spec's example shapes. -/
theorem asset_list_shaping_witness :
    asset_list (Json.objOf [("count", .num 2), ("total", .num 10),
      ("content", .arrOf [.str "A", .str "B"])]) =
      .ok (.arrOf [.str "A", .str "B"]) ∧
    asset_list (Json.arrOf [.str "A", .str "B"]) =
      .error .unexpectedContentType := by
  exact ⟨asset_list_shaping.1 _ (.num 2) (.num 10) (.arrOf [.str "A", .str "B"])
      (by decide) (by decide) (by decide) (by decide),
    asset_list_shaping.2 [.str "A", .str "B"]⟩

/-- Claim C2 counterexample: a response with accepted status 200 whose body
is the single byte 0xFF (not valid UTF-8): the JSON parse fails, the text
fallback `response.content.decode("utf-8")` then raises a
`UnicodeDecodeError`, and that error — not an UnexpectedStatus — escapes
`get_content`, contradicting "no other error escapes to the caller". -/
theorem get_content_error_escape_counterexample :
    (200 : Nat) ∈ [200, 204] ∧
    get_content (fun _ => ⟨200, [], [0xFF]⟩) ⟨200, [], [0xFF]⟩ [200, 204]
        true true false true = .error .unicodeDecodeError := by decide

/-- Claim C2 (amended): `get_content` raises UnexpectedStatus, carrying the
response, exactly when the response's status is outside the accept set;
with an accepted status no UnexpectedStatus is ever raised, and whenever
the effective (possibly location-fetched) body is valid UTF-8 the call
returns exactly one of the four Content variants and no error escapes.
(Per the counterexample, an accepted-status body that is not valid UTF-8
makes the text fallback itself raise a UnicodeDecodeError.) -/
theorem get_content_status_dichotomy (fetch : String → Response)
    (response : Response) (accept : List Nat)
    (load get_from_location csv_content unzip : Bool) :
    (response.status_code ∉ accept →
      get_content fetch response accept load get_from_location csv_content
        unzip = .error (.unexpectedStatus response))
    ∧ (response.status_code ∈ accept → ∀ r',
      get_content fetch response accept load get_from_location csv_content
        unzip ≠ .error (.unexpectedStatus r'))
    ∧ (response.status_code ∈ accept →
      utf8Decode (resolve_location fetch response get_from_location).content ≠
        none →
      ∃ c, get_content fetch response accept load get_from_location
        csv_content unzip = .ok c) := by
  refine ⟨fun hout => by simp [get_content, hout], fun hin r' => ?_,
    fun hin hdec => ?_⟩
  · simp only [get_content, if_pos hin]
    split
    · simp
    · split
      · simp
      · split
        · simp
        · simp
  · simp only [get_content, if_pos hin]
    split
    · exact ⟨_, rfl⟩
    · split
      · exact ⟨_, rfl⟩
      · split
        · exact ⟨_, rfl⟩
        · next hnone => exact absurd hnone hdec

/-- Witness for amended C2: a rejected 404 raises UnexpectedStatus carrying
the response; an accepted 200 with a valid-UTF-8 body returns a Content. -/
theorem get_content_status_dichotomy_witness :
    get_content (fun _ => ⟨404, [], []⟩) ⟨404, [], []⟩ [200, 204] true true
      false true = .error (.unexpectedStatus ⟨404, [], []⟩) ∧
    (∃ c, get_content (fun _ => ⟨200, [], utf8Encode "[]"⟩)
      ⟨200, [], utf8Encode "[]"⟩ [200, 204] true true false true = .ok c) := by
  refine ⟨(get_content_status_dichotomy _ _ _ _ _ _ _).1 (by decide), ?_⟩
  exact (get_content_status_dichotomy (fun _ => ⟨200, [], utf8Encode "[]"⟩)
    ⟨200, [], utf8Encode "[]"⟩ [200, 204] true true false true).2.2
    (by decide) (by decide)

/-- Claim C4 counterexample: the body 0xC3 (a truncated UTF-8 sequence) is
not valid JSON, yet `get_content` with load=true, csv_content=false does
not return the UTF-8 text of the body — the fallback decode raises — so
"if the body is not valid JSON ... returns the UTF-8 decoding ... and does
not raise" fails. -/
theorem get_content_json_fallback_counterexample :
    json_loads [0xC3] = none ∧
    get_content (fun _ => ⟨200, [], [0xC3]⟩) ⟨200, [], [0xC3]⟩ [200, 204]
      true true false true = .error .unicodeDecodeError := by decide

/-- Claim C4 (amended): with an accepted status, load=true and
csv_content=false, a body that parses as JSON yields exactly the
structured parse result, and a body that does not parse as JSON but is
valid UTF-8 text yields that text without raising.  (A body that is
neither valid JSON nor valid UTF-8 raises — see the counterexample.) -/
theorem get_content_json_or_text (fetch : String → Response)
    (response : Response) (accept : List Nat) (gfl unzip : Bool)
    (hin : response.status_code ∈ accept) :
    (∀ v, json_loads (resolve_location fetch response gfl).content = some v →
      get_content fetch response accept true gfl false unzip =
        .ok (.structured v))
    ∧ (json_loads (resolve_location fetch response gfl).content = none →
      ∀ s, utf8Decode (resolve_location fetch response gfl).content = some s →
      get_content fetch response accept true gfl false unzip =
        .ok (.text s)) := by
  constructor
  · intro v hv
    simp [get_content, hin, hv]
  · intro hnone s hs
    simp [get_content, hin, hnone, hs]

/-- Witness for amended C4: a valid JSON body decodes to its parse; a
malformed-JSON but valid-UTF-8 body degrades to its text. -/
theorem get_content_json_or_text_witness :
    get_content (fun _ => ⟨200, [], utf8Encode "[1, 2]"⟩)
      ⟨200, [], utf8Encode "[1, 2]"⟩ [200, 204] true true false true =
      .ok (.structured (.arrOf [.num 1, .num 2])) ∧
    get_content (fun _ => ⟨200, [], utf8Encode "nope"⟩)
      ⟨200, [], utf8Encode "nope"⟩ [200, 204] true true false true =
      .ok (.text "nope") := by
  constructor
  · exact (get_content_json_or_text (fun _ => ⟨200, [], utf8Encode "[1, 2]"⟩)
      ⟨200, [], utf8Encode "[1, 2]"⟩ [200, 204] true true (by decide)).1
      (.arrOf [.num 1, .num 2]) (by decide)
  · exact (get_content_json_or_text (fun _ => ⟨200, [], utf8Encode "nope"⟩)
      ⟨200, [], utf8Encode "nope"⟩ [200, 204] true true (by decide)).2
      (by decide) "nope" (by decide)

/-- Claim C6: with an accepted status and load=false, `get_content` returns
exactly the raw byte payload, unmodified by any parsing: fetched afresh
from the Location header's URL when get_from_location is set and the
response carries a (non-empty) Location header; the original response's
payload when no Location header is present, whenever get_from_location is
unset (a Location header may then be present and is ignored — the
`asset_import` / `asset_get_data` call pattern), and when the Location
header is present but empty (Python's truthiness test on line 72). -/
theorem get_content_raw (fetch : String → Response) (response : Response)
    (accept : List Nat) (gfl csv unzip : Bool)
    (hin : response.status_code ∈ accept) :
    (∀ loc, response.getHeader "Location" = some loc → loc ≠ "" →
      get_content fetch response accept false true csv unzip =
        .ok (.raw (fetch loc).content))
    ∧ (response.getHeader "Location" = none →
      get_content fetch response accept false gfl csv unzip =
        .ok (.raw response.content))
    ∧ (get_content fetch response accept false false csv unzip =
      .ok (.raw response.content))
    ∧ (response.getHeader "Location" = some "" →
      get_content fetch response accept false gfl csv unzip =
        .ok (.raw response.content)) := by
  refine ⟨fun loc hloc hne => ?_, fun hnone => ?_, ?_, fun hempty => ?_⟩
  · simp [get_content, resolve_location, hin, hloc, hne]
  · cases gfl with
    | false => simp [get_content, resolve_location, hin]
    | true => simp [get_content, resolve_location, hin, hnone]
  · simp [get_content, resolve_location, hin]
  · cases gfl with
    | false => simp [get_content, resolve_location, hin]
    | true => simp [get_content, resolve_location, hin, hempty]

/-- Witness for C6: a Location redirect returns the fetched bytes; a
response without Location returns its own bytes; a response with a
Location header but get_from_location unset returns its own bytes. -/
theorem get_content_raw_witness :
    get_content (fun l => if l = "http://u" then ⟨200, [], [9, 9]⟩ else ⟨0, [], []⟩)
      ⟨200, [("Location", "http://u")], [1]⟩ [200, 204] false true false true =
      .ok (.raw [9, 9]) ∧
    get_content (fun _ => ⟨0, [], []⟩) ⟨200, [], [7]⟩ [200, 204] false true
      false true = .ok (.raw [7]) ∧
    get_content (fun _ => ⟨0, [], []⟩)
      ⟨200, [("Location", "http://u")], [5]⟩ [200, 204] false false false
      true = .ok (.raw [5]) := by
  refine ⟨?_, ?_, ?_⟩
  · have h := (get_content_raw
      (fun l => if l = "http://u" then ⟨200, [], [9, 9]⟩ else ⟨0, [], []⟩)
      ⟨200, [("Location", "http://u")], [1]⟩ [200, 204] true false true
      (by decide)).1 "http://u" (by decide) (by decide)
    simpa using h
  · exact (get_content_raw (fun _ => ⟨0, [], []⟩) ⟨200, [], [7]⟩ [200, 204]
      true false true (by decide)).2.1 (by decide)
  · exact (get_content_raw (fun _ => ⟨0, [], []⟩)
      ⟨200, [("Location", "http://u")], [5]⟩ [200, 204] true false true
      (by decide)).2.2.1

/-- A well-formed single-entry zip archive whose stored (uncompressed)
entry, named "f", is the CSV text "a,b\n1,2\n": local file header with the
entry's CRC-32 and sizes, the entry data, the central directory record,
and the end-of-central-directory record. -/
def zipArchiveCsv : List Nat :=
  [0x50, 0x4B, 0x03, 0x04, 20, 0, 0, 0, 0, 0, 0, 0, 0, 0,
    123, 7, 151, 10, 8, 0, 0, 0, 8, 0, 0, 0, 1, 0, 0, 0, 102,
    97, 44, 98, 10, 49, 44, 50, 10,
    0x50, 0x4B, 0x01, 0x02, 20, 0, 20, 0, 0, 0, 0, 0, 0, 0, 0, 0,
    123, 7, 151, 10, 8, 0, 0, 0, 8, 0, 0, 0, 1, 0, 0, 0, 0, 0, 0, 0,
    0, 0, 0, 0, 0, 0, 0, 0, 0, 0, 102,
    0x50, 0x4B, 0x05, 0x06, 0, 0, 0, 0, 1, 0, 1, 0,
    47, 0, 0, 0, 39, 0, 0, 0, 0, 0]

set_option maxRecDepth 40000 in
/-- Claim C7: with load=true and csv_content=true, decoding the CSV text
"a,b\n1,2\n" — directly when unzip=false, or wrapped as the single entry of
a zip archive when unzip=true — yields exactly the tabular rows
[["a","b"],["1","2"]], with "," as the delimiter. -/
theorem get_content_csv_round_trip :
    get_content (fun _ => ⟨0, [], []⟩) ⟨200, [], utf8Encode "a,b\n1,2\n"⟩
      [200, 204] true true true false =
      .ok (.tabular [["a", "b"], ["1", "2"]]) ∧
    get_content (fun _ => ⟨0, [], []⟩) ⟨200, [], zipArchiveCsv⟩
      [200, 204] true true true true =
      .ok (.tabular [["a", "b"], ["1", "2"]]) := by
  constructor
  · decide
  · decide

/-- Claim C10 counterexample: with csv_content=true and unzip=true, the body
[0xFF, 0x50] is not a valid archive — the zip step fails — yet
`get_content` does not return the UTF-8 text of the body: the body is not
valid UTF-8, so the fallback decode raises instead, contradicting "any
failure of the zip-extraction or CSV-parsing step also causes get_content
to return the UTF-8 text of the body instead of raising". -/
theorem get_content_csv_degrade_counterexample :
    zipReadFirst [0xFF, 0x50] = none ∧
    get_content (fun _ => ⟨200, [], [0xFF, 0x50]⟩) ⟨200, [], [0xFF, 0x50]⟩
      [200, 204] true true true true = .error .unicodeDecodeError := by decide

/-- Claim C10 (amended): with load=true and csv_content=true, any failure of
the zip-extraction step (unzip set) or of the CSV-parsing step makes
`get_content` return the UTF-8 text of the effective body instead of
raising — the silent degrade-to-text policy covers the tabular path —
provided that body is valid UTF-8; when it is not, the fallback decode
itself raises (see the counterexample). -/
theorem get_content_csv_degrade (fetch : String → Response)
    (response : Response) (accept : List Nat) (gfl unzip : Bool)
    (hin : response.status_code ∈ accept)
    (hfail :
      (if unzip then zipReadFirst (resolve_location fetch response gfl).content
        else some (resolve_location fetch response gfl).content) = none ∨
      (∃ c, (if unzip then
          zipReadFirst (resolve_location fetch response gfl).content
        else some (resolve_location fetch response gfl).content) = some c ∧
        read_csv (splitlines c) ',' = none))
    (s : String)
    (hs : utf8Decode (resolve_location fetch response gfl).content = some s) :
    get_content fetch response accept true gfl true unzip = .ok (.text s) := by
  rcases hfail with hzip | ⟨c, hc, hcsv⟩
  · simp [get_content, hin, hzip, hs]
  · simp [get_content, hin, hc, hcsv, hs]

/-- Witness for amended C10: the body "hello" is not a zip archive, so with
unzip=true the tabular path fails and its UTF-8 text is returned. -/
theorem get_content_csv_degrade_witness :
    get_content (fun _ => ⟨200, [], utf8Encode "hello"⟩)
      ⟨200, [], utf8Encode "hello"⟩ [200, 204] true true true true =
      .ok (.text "hello") := by
  exact get_content_csv_degrade (fun _ => ⟨200, [], utf8Encode "hello"⟩)
    ⟨200, [], utf8Encode "hello"⟩ [200, 204] true true (by decide)
    (Or.inl (by decide)) "hello" (by decide)

/-- A POST response carrying a Location header whose body is the JSON
object with an "id" field (bytes of the text with key "id" and value 1). -/
def c9RespLoc : Response :=
  ⟨200, [("Location", "http://u")], [123, 34, 105, 100, 34, 58, 49, 125]⟩

/-- Asset records fetched after the upload: immediately terminal. -/
def c9Gets : Nat → Json := fun _ => .objOf [("status", .str "ready"),
  ("id", .num 1)]

/-- Claim C9 counterexample: `asset_post` does not PUT the caller-supplied
payload as such — line 476 uploads `data.encode("utf-8").strip()` — so for
the payload " payload " (with surrounding spaces) the PUT body is the
encoding of "payload", not of the supplied payload. -/
theorem asset_post_put_strip_counterexample :
    asset_post c9RespLoc c9Gets " payload " false 5 =
      some (c9Gets 0, [("http://u", utf8Encode "payload")], 1) ∧
    utf8Encode "payload" ≠ utf8Encode " payload " := by decide

/-- Claim C9 (amended): for a decoded initial response whose content carries
an "id": when the initial response has a Location header, `asset_post`
PUTs the caller-supplied payload — UTF-8-encoded and stripped of leading
and trailing ASCII whitespace — to that location exactly once, then with
wait=true polls the created asset until its status leaves the
uploading/processing set and returns the record obtained by one fresh
re-fetch, and with wait=false skips polling and still returns a fresh
re-fetch's record; with no Location header it returns the initially
decoded content directly, with no PUT and no re-fetch. -/
theorem asset_post_create_flow (response : Response) (assetGets : Nat → Json)
    (data : String) (fuel : Nat) (content idv : Json)
    (hst : response.status_code ∈ [200, 204])
    (hjson : json_loads response.content = some content)
    (hid : jsonGet content "id" = some idv) :
    (response.getHeader "Location" = none → ∀ wait,
      asset_post response assetGets data wait fuel = some (content, [], 0))
    ∧ (∀ loc, response.getHeader "Location" = some loc →
      (asset_post response assetGets data false fuel =
        some (assetGets 0, [(loc, bytesStrip (utf8Encode data))], 1))
      ∧ (∀ v k, asset_polling assetGets fuel = some (v, k) →
        asset_post response assetGets data true fuel =
          some (assetGets k, [(loc, bytesStrip (utf8Encode data))], k + 1))) := by
  have hgc : get_content (fun _ => response) response [200, 204] true false
      false true = .ok (.structured content) := by
    simp [get_content, resolve_location, hst, hjson]
  refine ⟨fun hnone wait => ?_, fun loc hloc => ⟨?_, fun v k hpoll => ?_⟩⟩
  · simp [asset_post, hgc, hnone, hid]
  · simp [asset_post, hgc, hloc, hid]
  · simp [asset_post, hgc, hloc, hid, hpoll]

/-- A POST response with no Location header and the same JSON body. -/
def c9RespNoLoc : Response := ⟨200, [], [123, 34, 105, 100, 34, 58, 49, 125]⟩

/-- Witness for amended C9: with a Location header and wait=true the
stripped payload is PUT once, the terminal poll takes one check, and the
second fetch's record is returned; with no Location header the decoded
content comes back directly. -/
theorem asset_post_create_flow_witness :
    asset_post c9RespNoLoc c9Gets "payload-text" true 5 =
      some (.objOf [("id", .num 1)], [], 0) ∧
    asset_post c9RespLoc c9Gets "payload-text" true 5 =
      some (c9Gets 1, [("http://u", utf8Encode "payload-text")], 2) := by
  constructor
  · exact (asset_post_create_flow c9RespNoLoc c9Gets "payload-text" 5
      (.objOf [("id", .num 1)]) (.num 1) (by decide) (by decide)
      (by decide)).1 (by decide) true
  · have h := (asset_post_create_flow c9RespLoc c9Gets "payload-text" 5
      (.objOf [("id", .num 1)]) (.num 1) (by decide) (by decide)
      (by decide)).2 "http://u" (by decide)
    have h2 := h.2 (.str "ready") 1 (by decide)
    simpa using h2
